import Mathlib

/-!
Verification of the sotajs framework core: the port registry (DI container,
`src/lib/di.ts` and `src/lib/di.v2.ts`), the aggregate factory (two versions,
a plain one and an immer-based one), the entity factory (`src/lib/entity.ts`,
`deepFreeze` from `src/lib/utils.ts`) and branded identifiers
(`createBrandedId`).  Each TypeScript function is shallowly embedded as an
executable Lean definition; theorems below settle the specification claims.
-/

namespace Sotajs

/-- Decidable equality for `Except`, so that runs of the embedded
operations can be checked by `decide`. -/
instance {ε α : Type} [DecidableEq ε] [DecidableEq α] : DecidableEq (Except ε α) := fun x y =>
  match x, y with
  | .error a, .error b =>
    if h : a = b then .isTrue (by rw [h]) else .isFalse (by simpa using h)
  | .ok a, .ok b =>
    if h : a = b then .isTrue (by rw [h]) else .isFalse (by simpa using h)
  | .error _, .ok _ => .isFalse (fun hh => Except.noConfusion hh)
  | .ok _, .error _ => .isFalse (fun hh => Except.noConfusion hh)

/-! ## Port registry, di.v2.ts

The registry consists of two pieces of module-level state:
`portRegistry : Map<string, Port>` (declared port ids) and the bottlejs
`container` (adapter bindings, stored as factories keyed by port id).
We model them as a pair of lists; binding conses to the front and lookup
takes the first hit, which matches bottlejs "last factory registration
wins" overwrite semantics.  `resetDI` replaces only the container
(`container = new Bottle()`): the `portRegistry` map is untouched. -/

/-- The two error kinds raised by the registry: `registration` is the
"invalid or unregistered port" error, `resolution` is the
"No implementation found for the port" error. -/
inductive DIError where
  | registration
  | resolution
deriving DecidableEq, Repr

/-- A port descriptor from `createPort` (di.v2.ts): a plain object whose
only runtime content is the optional `PORT_ID_SYMBOL` property. -/
structure Port where
  portId : Option String
deriving DecidableEq, Repr

/-- The registry's module-level state: declared port ids (`portRegistry`
keys) and the bottlejs container's bindings. -/
structure DIState (α : Type) where
  registry : List String
  bindings : List (String × α)
deriving DecidableEq, Repr

/-- The state at module load: no declarations, empty container. -/
def emptyDI (α : Type) : DIState α := ⟨[], []⟩

/-- `createPort()` (di.v2.ts lines 26-40): allocates a fresh id, records it
in `portRegistry`, returns the descriptor carrying the id.  The fresh id is
a parameter standing for `crypto.randomUUID()`. -/
def createPort (fresh : String) (s : DIState α) : Port × DIState α :=
  (⟨some fresh⟩, { s with registry := fresh :: s.registry })

/-- The guard shared by `setPortAdapter` and `usePort`:
`if (!portId || !portRegistry.has(portId))` — the id must be present (and
non-empty, since the empty string is falsy in JS) and declared. -/
def portOk (p : Port) (s : DIState α) : Option String :=
  match p.portId with
  | none => none
  | some pid => if pid = "" then none else if pid ∈ s.registry then some pid else none

/-- First-hit lookup in the bindings list (bottlejs container access). -/
def lookupBinding (pid : String) : List (String × α) → Option α
  | [] => none
  | (k, v) :: rest => if k = pid then some v else lookupBinding pid rest

/-- `setPortAdapter(port, adapter)` (di.v2.ts lines 48-58): raises the
registration error when the guard fails, otherwise stores the adapter
(as a factory) under the port id, shadowing any previous binding. -/
def setPortAdapter (p : Port) (adapter : α) (s : DIState α) : Except DIError (DIState α) :=
  match portOk p s with
  | none => .error .registration
  | some pid => .ok { s with bindings := (pid, adapter) :: s.bindings }

/-- `usePort(port)` (di.v2.ts lines 83-97): registration error when the
guard fails; otherwise the container is consulted and a missing binding
raises the resolution error; a present binding is returned. -/
def usePort (p : Port) (s : DIState α) : Except DIError α :=
  match portOk p s with
  | none => .error .registration
  | some pid =>
    match lookupBinding pid s.bindings with
    | none => .error .resolution
    | some a => .ok a

/-- `resetDI()` (di.v2.ts lines 120-122): `container = new Bottle()`.
Only the bindings are discarded; `portRegistry` keeps every declared id. -/
def resetDI (s : DIState α) : DIState α := { s with bindings := [] }

/-- The concrete run used to refute claim C3: declare one port and bind
the adapter `7` to it. -/
def c3Port : Port := (createPort "p1" (emptyDI Nat)).1

/-- The registry state after the declaration and the bind of `c3Port`. -/
def c3BoundState : DIState Nat := ⟨["p1"], [("p1", 7)]⟩

/-- Claim C3, counterexample: after `resetDI`, resolving the
previously-bound port `c3Port` raises the resolution error
("no implementation found"), not the registration error the claim states,
because `resetDI` leaves the declared id in `portRegistry`. -/
theorem usePort_after_reset_not_registration_cex :
    setPortAdapter c3Port 7 (createPort "p1" (emptyDI Nat)).2 = .ok c3BoundState ∧
    usePort c3Port (resetDI c3BoundState) = .error .resolution ∧
    usePort c3Port (resetDI c3BoundState) ≠ .error .registration := by
  decide

/-- Claim C3, amended: after `resetDI`, resolving any port declared before
the reset raises the resolution error ("no implementation found"), never
the registration error: `resetDI` clears bindings only, so handles created
before the reset stay registered. -/
theorem usePort_after_reset_resolution_error {α : Type} (p : Port) (s : DIState α)
    (pid : String) (h1 : p.portId = some pid) (h2 : pid ≠ "") (h3 : pid ∈ s.registry) :
    usePort p (resetDI s) = .error .resolution := by
  simp [usePort, resetDI, portOk, h1, h2, h3, lookupBinding]

/-- Witness for the amended C3 theorem at the concrete bound state. -/
theorem usePort_after_reset_resolution_error_witness :
    c3Port.portId = some "p1" ∧ "p1" ∈ c3BoundState.registry ∧
    usePort c3Port (resetDI c3BoundState) = .error .resolution :=
  ⟨by decide, by decide,
    usePort_after_reset_resolution_error c3Port c3BoundState "p1"
      (by decide) (by decide) (by decide)⟩

/-! ## Aggregate factory

The repository carries two versions of `createAggregate`.  The simple one
keeps `props` and `pendingEvents` as private fields; an action runs the
configured pure transition on the current props, checks every invariant
against the returned next state, and only then commits the state and
pushes the returned event.  The immer one stores props/events in WeakMaps;
an action runs the transition inside an immer `produce` recipe — and pushes
the produced event into the events WeakMap *inside the recipe*, before the
invariant loop runs on the produced next state.

A transition (`config.actions[name]` applied to the current props and the
call's arguments) is embedded as `P → Except String (ActionResult P E)`:
`.error` models the transition itself throwing (a precondition failure),
`.ok` carries the proposed next props (for the immer version, the mutated
draft) and the optional event.  An invariant is `P → Option String`
(`some` models the invariant throwing with that message). -/

/-- The value produced by a transition function: the proposed next props
and an optional domain event. -/
structure ActionResult (P E : Type) where
  state : P
  event : Option E
deriving DecidableEq, Repr

/-- An aggregate instance's internal state: its props and its pending
domain events (`pendingEvents` field / `aggregateEvents` WeakMap entry). -/
structure AggState (P E : Type) where
  props : P
  pendingEvents : List E
deriving DecidableEq, Repr

/-- The invariant loop (`for (const invariant of config.invariants)`):
the message of the first invariant that throws, or `none`. -/
def firstViolation {P : Type} (invariants : List (P → Option String)) (p : P) : Option String :=
  match invariants with
  | [] => none
  | inv :: rest =>
    match inv p with
    | some e => some e
    | none => firstViolation rest p

/-- One action call of the simple `createAggregate` (part_009 lines 78-103).
Returns the instance state after the call together with the raised error,
if any: the transition runs on the current props; on a transition throw or
an invariant violation nothing was mutated; otherwise the next state is
committed and the event (if any) appended. -/
def runActionSimple {P E : Type} (invariants : List (P → Option String))
    (act : P → Except String (ActionResult P E)) (s : AggState P E) :
    AggState P E × Option String :=
  match act s.props with
  | .error e => (s, some e)
  | .ok r =>
    match firstViolation invariants r.state with
    | some e => (s, some e)
    | none => (⟨r.state, s.pendingEvents ++ r.event.toList⟩, none)

/-- One action call of the immer `createAggregate` (part_009 lines 233-257).
Inside the `produce` recipe the transition runs on the draft and, if it
returned an event, that event is pushed into the events WeakMap at once;
only afterwards does the invariant loop run on the produced next state, and
only on success are the props replaced.  So on an invariant violation the
props are untouched but the event push has already happened. -/
def runActionImmer {P E : Type} (invariants : List (P → Option String))
    (act : P → Except String (ActionResult P E)) (s : AggState P E) :
    AggState P E × Option String :=
  match act s.props with
  | .error e => (s, some e)
  | .ok r =>
    let afterRecipe : AggState P E := ⟨s.props, s.pendingEvents ++ r.event.toList⟩
    match firstViolation invariants r.state with
    | some e => (afterRecipe, some e)
    | none => (⟨r.state, afterRecipe.pendingEvents⟩, none)

/-- `getPendingEvents()` of the simple version (part_009 lines 55-57):
returns a copy of the pending list and leaves the instance unchanged —
despite its own doc comment, nothing is cleared. -/
def getPendingEventsSimple {P E : Type} (s : AggState P E) : List E × AggState P E :=
  (s.pendingEvents, s)

/-- `getPendingEvents()` of the immer version (part_009 lines 213-217):
returns a copy of the pending list and resets the events WeakMap entry to
the empty list. -/
def getPendingEventsImmer {P E : Type} (s : AggState P E) : List E × AggState P E :=
  (s.pendingEvents, ⟨s.props, []⟩)

/-- `clearEvents()` (both versions): discard pending events. -/
def clearEvents {P E : Type} (s : AggState P E) : AggState P E :=
  ⟨s.props, []⟩

/-- `create` of the simple version (part_009 lines 39-42): parse the raw
input with the schema and construct — no invariant is ever consulted. -/
def createSimple {Raw P E : Type} (schema : Raw → Except String P) (raw : Raw) :
    Except String (AggState P E) :=
  match schema raw with
  | .error e => .error e
  | .ok p => .ok ⟨p, []⟩

/-- `create` of the immer version (part_009 lines 166-188): parse the raw
input, hydrate configured entity properties (the loop over
`config.entities`, each key replaced via `EntityClass.create`, which may
itself raise — embedded as one hydration function), run every invariant on
the hydrated props, and only then construct with an empty event list. -/
def createImmer {Raw P H E : Type} (schema : Raw → Except String P)
    (hydrate : P → Except String H) (invariants : List (H → Option String))
    (raw : Raw) : Except String (AggState H E) :=
  match schema raw with
  | .error e => .error e
  | .ok p =>
    match hydrate p with
    | .error e => .error e
    | .ok h =>
      match firstViolation invariants h with
      | some e => .error e
      | none => .ok ⟨h, []⟩

/-! ### Concrete order aggregate, used to evaluate the claims

This mirrors the `Order` / `FaultyOrder` aggregates of
`src/lib/aggregate.test.ts`: props `{id, status, amount}`, the invariant
"Amount cannot be negative.", the event-producing `pay` action and the
invariant-breaking `setBadAmount` action. -/

/-- Props of the order aggregate from the test suite. -/
structure OrderProps where
  id : String
  status : String
  amount : Int
deriving DecidableEq, Repr

/-- The `FaultyOrder` invariant: amount must not be negative. -/
def negAmountInv : OrderProps → Option String := fun p =>
  if p.amount < 0 then some "Amount cannot be negative." else none

/-- The `setBadAmount` action: sets the amount to -10, no event. -/
def setBadAmount : OrderProps → Except String (ActionResult OrderProps String) := fun p =>
  .ok ⟨{ p with amount := -10 }, none⟩

/-- A `pay`-like action that both breaks the invariant (amount -10) and
produces an `OrderPaid` event. -/
def payAndBreak : OrderProps → Except String (ActionResult OrderProps String) := fun p =>
  .ok ⟨{ p with status := "paid", amount := -10 }, some "OrderPaid"⟩

/-- The `pay` action of the test suite: requires status "pending", sets it
to "paid" (id untouched) and emits `OrderPaid`. -/
def pay : OrderProps → Except String (ActionResult OrderProps String) := fun p =>
  if p.status = "pending" then .ok ⟨{ p with status := "paid" }, some "OrderPaid"⟩
  else .error "Only pending orders can be paid."

/-- A freshly created valid order instance (id "order-1", pending, 100). -/
def ord0 : AggState OrderProps String :=
  ⟨⟨"order-1", "pending", 100⟩, []⟩

/-- Claim C1: in both aggregate versions, when an action call raises (the
transition throws or an invariant rejects the proposed next state), the
proposed next state is never committed: the instance's props after the
call are exactly its props before the call. -/
theorem action_rollback_on_violation {P E : Type}
    (invariants : List (P → Option String))
    (act : P → Except String (ActionResult P E)) (s : AggState P E) (e : String) :
    ((runActionSimple invariants act s).2 = some e →
      (runActionSimple invariants act s).1.props = s.props) ∧
    ((runActionImmer invariants act s).2 = some e →
      (runActionImmer invariants act s).1.props = s.props) := by
  unfold runActionSimple runActionImmer
  cases hact : act s.props with
  | error e0 => simp
  | ok r =>
    cases hv : firstViolation invariants r.state with
    | none => simp [hv]
    | some e0 => simp [hv]

/-- Witness for C1: the `FaultyOrder` scenario of the test suite —
`setBadAmount` on a valid order raises "Amount cannot be negative." and
the amount is still 100 afterwards, in both versions. -/
theorem action_rollback_on_violation_witness :
    (runActionSimple [negAmountInv] setBadAmount ord0).2 = some "Amount cannot be negative." ∧
    (runActionImmer [negAmountInv] setBadAmount ord0).2 = some "Amount cannot be negative." ∧
    (runActionSimple [negAmountInv] setBadAmount ord0).1.props = ord0.props ∧
    (runActionImmer [negAmountInv] setBadAmount ord0).1.props = ord0.props :=
  ⟨by decide, by decide,
    (action_rollback_on_violation [negAmountInv] setBadAmount ord0
      "Amount cannot be negative.").1 (by decide),
    (action_rollback_on_violation [negAmountInv] setBadAmount ord0
      "Amount cannot be negative.").2 (by decide)⟩

/-- Claim C2, counterexample: in the immer version the event push happens
inside the `produce` recipe, before the invariant loop — so `payAndBreak`
on a valid order raises "Amount cannot be negative." and yet the
`OrderPaid` event produced by the failed action is observable afterwards:
the pending list went from `[]` to `["OrderPaid"]` across the failed
call, and the next `getPendingEvents()` returns exactly that event. -/
theorem failed_action_event_visible_cex :
    (runActionImmer [negAmountInv] payAndBreak ord0).2 = some "Amount cannot be negative." ∧
    ord0.pendingEvents = [] ∧
    (runActionImmer [negAmountInv] payAndBreak ord0).1.pendingEvents = ["OrderPaid"] ∧
    (getPendingEventsImmer (runActionImmer [negAmountInv] payAndBreak ord0).1).1 =
      ["OrderPaid"] := by
  decide

/-- Claim C2, amended: a successful action appends its produced event
exactly once in both versions; in the simple version a failed action
leaves the pending-events list unchanged, as claimed; but in the immer
version, whenever the transition function itself returns (does not
throw), its event is appended to the pending list regardless of the
invariant outcome, so a failed action's event stays pending and is
observable through `getPendingEvents`. -/
theorem event_append_by_version {P E : Type}
    (invariants : List (P → Option String))
    (act : P → Except String (ActionResult P E)) (s : AggState P E) :
    (∀ e, (runActionSimple invariants act s).2 = some e →
      (runActionSimple invariants act s).1.pendingEvents = s.pendingEvents) ∧
    (∀ r, act s.props = .ok r → firstViolation invariants r.state = none →
      (runActionSimple invariants act s).1.pendingEvents =
        s.pendingEvents ++ r.event.toList) ∧
    (∀ r, act s.props = .ok r →
      (runActionImmer invariants act s).1.pendingEvents =
        s.pendingEvents ++ r.event.toList) := by
  unfold runActionSimple runActionImmer
  cases hact : act s.props with
  | error e0 => simp
  | ok r =>
    cases hv : firstViolation invariants r.state with
    | none => simp [hv]
    | some e0 => simp [hv]

/-- Witness for the amended C2 theorem: the simple version keeps the
pending list empty across the failed `setBadAmount` call; the successful
`pay` call appends `OrderPaid` exactly once in the simple version; and
the immer version appends `OrderPaid` across the failed `payAndBreak`
call. -/
theorem event_append_by_version_witness :
    (runActionSimple [negAmountInv] setBadAmount ord0).2 = some "Amount cannot be negative." ∧
    (runActionSimple [negAmountInv] setBadAmount ord0).1.pendingEvents = ord0.pendingEvents ∧
    (runActionSimple [negAmountInv] pay ord0).1.pendingEvents =
      ord0.pendingEvents ++ ["OrderPaid"] ∧
    (runActionImmer [negAmountInv] payAndBreak ord0).1.pendingEvents =
      ord0.pendingEvents ++ ["OrderPaid"] :=
  ⟨by decide,
    (event_append_by_version [negAmountInv] setBadAmount ord0).1
      "Amount cannot be negative." (by decide),
    (event_append_by_version [negAmountInv] pay ord0).2.1
      ⟨⟨"order-1", "paid", 100⟩, some "OrderPaid"⟩ (by decide) (by decide),
    (event_append_by_version [negAmountInv] payAndBreak ord0).2.2
      ⟨⟨"order-1", "paid", -10⟩, some "OrderPaid"⟩ (by decide)⟩

/-- An order instance holding one pending `OrderPaid` event, as after a
successful `pay` action. -/
def ordWithEvent : AggState OrderProps String :=
  ⟨⟨"order-1", "paid", 100⟩, ["OrderPaid"]⟩

/-- Claim C4: the simple version's `getPendingEvents` does not drain — a
second immediate call returns the same event again, contradicting its own
doc comment ("This method also clears the list of pending events") and the
test "getPendingEvents should clear the event queue"; the immer version
drains as claimed: first call returns the event once, second call returns
the empty list. -/
theorem getPendingEvents_drain_semantics :
    (getPendingEventsSimple ordWithEvent).1 = ["OrderPaid"] ∧
    (getPendingEventsSimple (getPendingEventsSimple ordWithEvent).2).1 = ["OrderPaid"] ∧
    (getPendingEventsImmer ordWithEvent).1 = ["OrderPaid"] ∧
    (getPendingEventsImmer (getPendingEventsImmer ordWithEvent).2).1 = [] := by
  decide

/-- A schema for the order aggregate, standing for
`z.object({id, status: enum, amount: number})`: the raw input is accepted
when the status is one of the three enum members (type-level validation);
business rules such as non-negative amounts are left to invariants, which
the schema does not know. -/
def orderSchema : OrderProps → Except String OrderProps := fun r =>
  if r.status = "pending" ∨ r.status = "paid" ∨ r.status = "shipped" then .ok r
  else .error "Invalid enum value"

/-- Raw order input that passes the schema but violates `negAmountInv`. -/
def rawNegOrder : OrderProps := ⟨"order-2", "pending", -5⟩

/-- Claim C5, counterexample: the simple version's `create` runs no
invariant — `rawNegOrder` passes the schema, violates the configured
invariant, and yet an instance is constructed from it. -/
theorem create_skips_invariants_cex :
    createSimple (E := String) orderSchema rawNegOrder = .ok ⟨rawNegOrder, []⟩ ∧
    negAmountInv rawNegOrder = some "Amount cannot be negative." := by
  decide

/-- Claim C5, amended: the immer version's `create` validates the schema,
hydrates, and runs every configured invariant, so an instance it returns
satisfies them all (with an empty pending list) and a schema failure
propagates with no instance produced; the simple version's `create` is
schema validation only — it consults no invariant. -/
theorem create_validation_by_version {Raw P H E : Type}
    (schema : Raw → Except String P) (hydrate : P → Except String H)
    (invariants : List (H → Option String)) (raw : Raw) :
    (∀ st : AggState H E, createImmer schema hydrate invariants raw = .ok st →
      firstViolation invariants st.props = none ∧ st.pendingEvents = []) ∧
    (∀ e, schema raw = .error e →
      createImmer (H := H) (E := E) schema hydrate invariants raw = .error e) ∧
    (createSimple (E := E) schema raw =
      match schema raw with
      | .error e => .error e
      | .ok p => .ok ⟨p, []⟩) := by
  refine ⟨?_, ?_, ?_⟩
  · intro st hst
    unfold createImmer at hst
    cases hs : schema raw with
    | error e0 => rw [hs] at hst; exact absurd hst (by simp)
    | ok p =>
      rw [hs] at hst
      dsimp only at hst
      cases hh : hydrate p with
      | error e0 => rw [hh] at hst; exact absurd hst (by simp)
      | ok h =>
        rw [hh] at hst
        dsimp only at hst
        cases hv : firstViolation invariants h with
        | some e0 => rw [hv] at hst; exact absurd hst (by simp)
        | none =>
          rw [hv] at hst
          injection hst with hst2
          subst hst2
          exact ⟨hv, rfl⟩
  · intro e he
    unfold createImmer
    rw [he]
  · rfl

/-- Witness for the amended C5 theorem: creating the valid order through
the immer `create` (identity hydration, `negAmountInv` configured) yields
an instance whose props satisfy the invariant and whose pending list is
empty. -/
theorem create_validation_by_version_witness :
    firstViolation [negAmountInv] (⟨"order-1", "pending", 100⟩ : OrderProps) = none ∧
    ((⟨⟨"order-1", "pending", 100⟩, []⟩ : AggState OrderProps String)).pendingEvents = [] :=
  (create_validation_by_version orderSchema (fun p => .ok p) [negAmountInv]
    (⟨"order-1", "pending", 100⟩ : OrderProps)).1
    ⟨⟨"order-1", "pending", 100⟩, []⟩ (by decide)

/-- A transition that overwrites the id field (nothing in the factory
forbids this), produced by some action configured by the developer. -/
def renameIdAct : OrderProps → Except String (ActionResult OrderProps String) := fun p =>
  .ok ⟨{ p with id := "order-X" }, none⟩

/-- Claim C7, counterexample: the commit path has no id guard — the
`renameIdAct` action succeeds (no invariant configured) and afterwards the
id accessor (`aggregateProps.get(this).id`) returns "order-X" where it
returned "order-1" before: a successful action changed the identity. -/
theorem id_not_immutable_cex :
    (runActionImmer [] renameIdAct ord0).2 = none ∧
    ord0.props.id = "order-1" ∧
    (runActionImmer [] renameIdAct ord0).1.props.id = "order-X" := by
  decide

/-- Claim C7, amended: the id accessor reads the id field of the committed
props, and the factory enforces nothing about it — an action call leaves
the accessor's value unchanged exactly when the transition preserves the
id field (failed calls trivially preserve it, since nothing is committed).
This holds for both aggregate versions. -/
theorem id_follows_committed_state {P E : Type} (idOf : P → String)
    (invariants : List (P → Option String))
    (act : P → Except String (ActionResult P E)) (s : AggState P E)
    (hpres : ∀ r, act s.props = .ok r → idOf r.state = idOf s.props) :
    idOf (runActionSimple invariants act s).1.props = idOf s.props ∧
    idOf (runActionImmer invariants act s).1.props = idOf s.props := by
  unfold runActionSimple runActionImmer
  cases hact : act s.props with
  | error e0 => simp
  | ok r =>
    have hid := hpres r hact
    cases hv : firstViolation invariants r.state with
    | none => simp [hv, hid]
    | some e0 => simp [hv]

/-- Witness for the amended C7 theorem: the id-preserving `pay` action on
a valid order leaves the id accessor at "order-1" in both versions. -/
theorem id_follows_committed_state_witness :
    OrderProps.id (runActionSimple [negAmountInv] pay ord0).1.props = OrderProps.id ord0.props ∧
    OrderProps.id (runActionImmer [negAmountInv] pay ord0).1.props = OrderProps.id ord0.props :=
  id_follows_committed_state OrderProps.id [negAmountInv] pay ord0
    (by intro r hr; injection hr with h3; subst h3; rfl)

/-! ## Snapshot freezing

`src/lib/entity.ts` exposes `state` as `deepFreeze({ ...this.props })`
(`deepFreeze` from `src/lib/utils.ts` recursively freezes, skipping
properties that are already frozen); the immer `createAggregate` exposes
`state` as `Object.freeze(dehydratedState)` where `dehydratedState` is a
shallow copy `{ ...hydratedState }` — a *shallow* freeze.  JS objects are
embedded as finite trees of primitives and objects, each object carrying
its frozen flag and field list; a property write in strict mode raises
exactly when the object holding the written property is frozen. -/

mutual

/-- A JS value: a primitive, or an object with a frozen flag and fields. -/
inductive JsValue where
  | prim : Int → JsValue
  | obj : Bool → JsFields → JsValue

/-- The field list of a JS object. -/
inductive JsFields where
  | nil : JsFields
  | fcons : String → JsValue → JsFields → JsFields

end

/-- `Object.freeze(o)`: marks only the top object frozen. -/
def shallowFreeze : JsValue → JsValue
  | .prim n => .prim n
  | .obj _ fs => .obj true fs

/-- The spread `{ ...o }`: a fresh unfrozen top-level object with the same
field values (nested values shared). -/
def shallowCopy : JsValue → JsValue
  | .prim n => .prim n
  | .obj _ fs => .obj false fs

mutual

/-- `deepFreeze` (utils.ts): freeze the root, then recurse into each
object-valued property that is not already frozen. -/
def deepFreeze : JsValue → JsValue
  | .prim n => .prim n
  | .obj _ fs => .obj true (deepFreezeFields fs)

/-- The `Object.keys(obj).forEach` loop of `deepFreeze`. -/
def deepFreezeFields : JsFields → JsFields
  | .nil => .nil
  | .fcons k v rest => .fcons k (deepFreezeProp v) (deepFreezeFields rest)

/-- One property visit of `deepFreeze`: primitives untouched, already
frozen objects skipped (`!Object.isFrozen(prop)` guard), unfrozen objects
recursively frozen. -/
def deepFreezeProp : JsValue → JsValue
  | .prim n => .prim n
  | .obj true fs => .obj true fs
  | .obj false fs => .obj true (deepFreezeFields fs)

end

/-- Property read. -/
def getField : JsFields → String → Option JsValue
  | .nil, _ => none
  | .fcons k v rest, key => if k = key then some v else getField rest key

/-- Property replacement (adds the property when missing). -/
def setField : JsFields → String → JsValue → JsFields
  | .nil, key, v => .fcons key v .nil
  | .fcons k w rest, key, v =>
    if k = key then .fcons k v rest else .fcons k w (setField rest key v)

/-- A strict-mode property write along a path: descend to the object
holding the final component and replace that property; the assignment
throws exactly when that holding object is frozen (freezing is per-object,
so a write may pass through a frozen parent into an unfrozen child). -/
def writeAt : JsValue → List String → JsValue → Except String JsValue
  | _, [], _ => .error "TypeError: empty property path"
  | .prim _, _ :: _, _ => .error "TypeError: cannot set a property of a primitive"
  | .obj frozen fs, [k], v =>
    if frozen then .error "TypeError: Cannot assign to read only property"
    else .ok (.obj false (setField fs k v))
  | .obj frozen fs, k :: k2 :: rest, v =>
    match getField fs k with
    | none => .error "TypeError: cannot set a property of undefined"
    | some child =>
      match writeAt child (k2 :: rest) v with
      | .error e => .error e
      | .ok child2 => .ok (.obj frozen (setField fs k child2))

/-- Whether an embedded operation raised. -/
def isErr {α : Type} : Except String α → Bool
  | .error _ => true
  | .ok _ => false

mutual

/-- No object anywhere in the value is frozen. -/
def allUnfrozen : JsValue → Bool
  | .prim _ => true
  | .obj f fs => !f && allUnfrozenFields fs

/-- No object anywhere in the field list is frozen. -/
def allUnfrozenFields : JsFields → Bool
  | .nil => true
  | .fcons _ v rest => allUnfrozen v && allUnfrozenFields rest

end

mutual

/-- Every object anywhere in the value is frozen. -/
def allFrozen : JsValue → Bool
  | .prim _ => true
  | .obj f fs => f && allFrozenFields fs

/-- Every object anywhere in the field list is frozen. -/
def allFrozenFields : JsFields → Bool
  | .nil => true
  | .fcons _ v rest => allFrozen v && allFrozenFields rest

end

/-- `Entity.state` (entity.ts line 48): `deepFreeze({ ...this.props })`. -/
def entityStateView (props : JsValue) : JsValue := deepFreeze (shallowCopy props)

/-- `Aggregate.state` of the immer version (part_009 lines 194-211), for an
aggregate with no `entities` configured: the dehydration loop is skipped,
so the snapshot is `Object.freeze({ ...hydratedState })`. -/
def aggregateStateView (props : JsValue) : JsValue := shallowFreeze (shallowCopy props)

mutual

theorem allFrozen_deepFreeze (v : JsValue) (h : allUnfrozen v = true) :
    allFrozen (deepFreeze v) = true := by
  match v with
  | .prim n => rfl
  | .obj f fs =>
    have h2 : allUnfrozenFields fs = true := by
      simp [allUnfrozen, Bool.and_eq_true] at h
      exact h.2
    simp only [deepFreeze, allFrozen, Bool.and_eq_true]
    exact ⟨trivial, allFrozenFields_deepFreezeFields fs h2⟩

theorem allFrozenFields_deepFreezeFields (fs : JsFields) (h : allUnfrozenFields fs = true) :
    allFrozenFields (deepFreezeFields fs) = true := by
  match fs with
  | .nil => rfl
  | .fcons k v rest =>
    have h1 : allUnfrozen v = true ∧ allUnfrozenFields rest = true := by
      simpa [allUnfrozenFields, Bool.and_eq_true] using h
    simp only [deepFreezeFields, allFrozenFields, Bool.and_eq_true]
    exact ⟨allFrozen_deepFreezeProp v h1.1, allFrozenFields_deepFreezeFields rest h1.2⟩

theorem allFrozen_deepFreezeProp (v : JsValue) (h : allUnfrozen v = true) :
    allFrozen (deepFreezeProp v) = true := by
  match v with
  | .prim n => rfl
  | .obj true fs => simp [allUnfrozen] at h
  | .obj false fs =>
    have h2 : allUnfrozenFields fs = true := by
      simpa [allUnfrozen] using h
    simp only [deepFreezeProp, allFrozen, Bool.and_eq_true]
    exact ⟨trivial, allFrozenFields_deepFreezeFields fs h2⟩

end

/-- In an all-frozen field list, every readable property is all-frozen. -/
theorem allFrozen_getField : ∀ (fs : JsFields) (k : String) (child : JsValue),
    allFrozenFields fs = true → getField fs k = some child → allFrozen child = true
  | .nil, k, child, _, hg => absurd hg (by simp [getField])
  | .fcons k2 v rest, k, child, h, hg => by
    have h2 : allFrozen v = true ∧ allFrozenFields rest = true := by
      simpa [allFrozenFields, Bool.and_eq_true] using h
    by_cases hk : k2 = k
    · rw [getField, if_pos hk] at hg
      injection hg with hg2
      subst hg2
      exact h2.1
    · rw [getField, if_neg hk] at hg
      exact allFrozen_getField rest k child h2.2 hg

/-- Every strict-mode write into an all-frozen value raises. -/
theorem writeAt_allFrozen_fails : ∀ (path : List String) (t v : JsValue),
    allFrozen t = true → path ≠ [] → isErr (writeAt t path v) = true
  | [], _, _, _, hne => absurd rfl hne
  | k :: rest, .prim n, v, _, _ => by cases rest <;> rfl
  | [k], .obj f fs, v, h, _ => by
    have hf : f = true := by
      simp [allFrozen, Bool.and_eq_true] at h
      exact h.1
    subst hf
    rfl
  | k :: k2 :: rest, .obj f fs, v, h, _ => by
    have h2 : f = true ∧ allFrozenFields fs = true := by
      simpa [allFrozen, Bool.and_eq_true] using h
    simp only [writeAt]
    cases hg : getField fs k with
    | none => rfl
    | some child =>
      dsimp only
      have hchild : allFrozen child = true := allFrozen_getField fs k child h2.2 hg
      have hrec := writeAt_allFrozen_fails (k2 :: rest) child v hchild (by simp)
      cases hw : writeAt child (k2 :: rest) v with
      | error e => rfl
      | ok c2 => rw [hw] at hrec; exact absurd hrec (by simp [isErr])

/-- An all-unfrozen value is unchanged by the top-level spread copy. -/
theorem shallowCopy_of_allUnfrozen (v : JsValue) (h : allUnfrozen v = true) :
    shallowCopy v = v := by
  match v with
  | .prim n => rfl
  | .obj f fs =>
    have hf : f = false := by
      simp [allUnfrozen, Bool.and_eq_true] at h
      simpa using h.1
    subst hf
    rfl

/-- The concrete order props with a nested object, as hydrated props of a
freshly created aggregate: `{ id: 1, nested: { x: 2 } }`, nothing frozen. -/
def nestedProps : JsValue :=
  .obj false (.fcons "id" (.prim 1)
    (.fcons "nested" (.obj false (.fcons "x" (.prim 2) .nil)) .nil))

/-- Claim C6, counterexample: the immer aggregate's snapshot is only
`Object.freeze`d at the top — writing the nested property `nested.x` of
the snapshot of `nestedProps` succeeds (raises nothing), so the snapshot
is not deeply frozen. -/
theorem aggregate_state_not_deeply_frozen_cex :
    isErr (writeAt (aggregateStateView nestedProps) ["nested", "x"] (.prim 99)) = false := by
  rfl

/-- Claim C6, amended: the entity snapshot (`deepFreeze`) is deeply
frozen — every strict-mode write at every depth raises (for props with no
pre-frozen sub-object, the normal case); the immer aggregate snapshot is
only shallowly frozen — every top-level write raises, but nested writes
can succeed (and, since the top-level copy shares nested objects with the
internal state, such a write lands in the aggregate's internal state). -/
theorem snapshot_write_protection (props : JsValue) (path : List String) (v : JsValue)
    (hu : allUnfrozen props = true) (hne : path ≠ []) :
    isErr (writeAt (entityStateView props) path v) = true ∧
    ∀ k, isErr (writeAt (aggregateStateView props) [k] v) = true := by
  constructor
  · have hcopy : allUnfrozen (shallowCopy props) = true := by
      rw [shallowCopy_of_allUnfrozen props hu]
      exact hu
    exact writeAt_allFrozen_fails path (deepFreeze (shallowCopy props)) v
      (allFrozen_deepFreeze (shallowCopy props) hcopy) hne
  · intro k
    match props with
    | .prim n => rfl
    | .obj f fs => rfl

/-- Witness for the amended C6 theorem at the nested order props: the
nested write that succeeded against the aggregate snapshot raises against
the entity snapshot, and a top-level write against the aggregate snapshot
raises. -/
theorem snapshot_write_protection_witness :
    isErr (writeAt (entityStateView nestedProps) ["nested", "x"] (.prim 99)) = true ∧
    isErr (writeAt (aggregateStateView nestedProps) ["id"] (.prim 7)) = true :=
  ⟨(snapshot_write_protection nestedProps ["nested", "x"] (.prim 99)
      (by decide) (by simp)).1,
    (snapshot_write_protection nestedProps ["id"] (.prim 7)
      (by decide) (by simp)).2 "id"⟩

/-! ## Entity equality, entity.ts -/

/-- An entity instance as `Entity.equals` sees it: `classId` stands for
the identity of the class object a `createEntity` call returned (the
`this.constructor === other.constructor` comparison), plus the id and the
remaining attributes of the props. -/
structure EntityInst where
  classId : Nat
  id : String
  attrs : List (String × Int)
deriving DecidableEq, Repr

/-- `Entity.equals` (entity.ts lines 56-62): false against
null/undefined; otherwise same constructor and same id. -/
def entityEquals (a : EntityInst) (other : Option EntityInst) : Bool :=
  match other with
  | none => false
  | some b => a.classId == b.classId && a.id == b.id

/-- Claim C8: two entity instances are `equals` iff they come from the
same container type and carry the same identity value; in particular,
same class and equal ids with different remaining attributes are equal,
and instances of different container types are never equal (and `equals`
against null/undefined is false). -/
theorem entity_equals_spec (a b : EntityInst) :
    (entityEquals a (some b) = true ↔ a.classId = b.classId ∧ a.id = b.id) ∧
    entityEquals a none = false ∧
    (a.classId = b.classId → a.id = b.id → entityEquals a (some b) = true) ∧
    (a.classId ≠ b.classId → entityEquals a (some b) = false) := by
  refine ⟨?_, rfl, ?_, ?_⟩
  · simp [entityEquals, Bool.and_eq_true, beq_iff_eq]
  · intro h1 h2
    simp [entityEquals, Bool.and_eq_true, beq_iff_eq, h1, h2]
  · intro h1
    simp [entityEquals, beq_iff_eq, h1]

/-- Witness for C8: instances of the same class with equal ids but
different attributes are equal; instances of different classes with equal
ids and attributes are not. -/
theorem entity_equals_spec_witness :
    entityEquals ⟨0, "e-1", [("a", 1)]⟩ (some ⟨0, "e-1", [("a", 2)]⟩) = true ∧
    entityEquals ⟨0, "e-1", []⟩ (some ⟨1, "e-1", []⟩) = false :=
  ⟨(entity_equals_spec ⟨0, "e-1", [("a", 1)]⟩ ⟨0, "e-1", [("a", 2)]⟩).2.2.1 rfl rfl,
    (entity_equals_spec ⟨0, "e-1", []⟩ ⟨1, "e-1", []⟩).2.2.2 (by decide)⟩

/-! ## Callable port descriptors, di.ts (v1)

The first DI version's `createPort` returns a *function* carrying the
port id: its body unconditionally throws the "is an interface and cannot
be called directly" error.  Binding an adapter stores a factory in the
bottlejs container and never touches the descriptor function itself. -/

/-- A di.ts port descriptor: a function object whose only data is the
`PORT_ID_SYMBOL` property (always assigned at creation). -/
structure CallablePort where
  portId : String
deriving DecidableEq, Repr

/-- `createPort()` (di.ts lines 26-44): build the throwing placeholder,
tag it with a fresh id, register it. -/
def createPortV1 (fresh : String) (s : DIState α) : CallablePort × DIState α :=
  (⟨fresh⟩, { s with registry := fresh :: s.registry })

/-- The message thrown by the placeholder body (di.ts lines 32-35). -/
def portInterfaceMsg (pid : String) : String :=
  "Port with ID \"" ++ pid ++ "\" is an interface and cannot be called directly. " ++
    "Use setPortAdapter() to provide an implementation."

/-- Calling the descriptor function itself (di.ts lines 31-36): the
closure ignores the registry state and the arguments and throws. -/
def invokePortDirectly {α β : Type} (p : CallablePort) (s : DIState α) (args : List β) :
    Except String Unit :=
  .error (portInterfaceMsg p.portId)

/-- The v1 guard `if (!portId || !portRegistry.has(portId))`. -/
def portOkV1 (p : CallablePort) (s : DIState α) : Option String :=
  if p.portId = "" then none
  else if p.portId ∈ s.registry then some p.portId else none

/-- `setPortAdapter` (di.ts lines 52-63). -/
def setPortAdapterV1 (p : CallablePort) (adapter : α) (s : DIState α) :
    Except String (DIState α) :=
  match portOkV1 p s with
  | none => .error "An invalid or unregistered port was provided."
  | some pid => .ok { s with bindings := (pid, adapter) :: s.bindings }

/-- `usePort` (di.ts lines 70-84). -/
def usePortV1 (p : CallablePort) (s : DIState α) : Except String α :=
  match portOkV1 p s with
  | none => .error "Attempted to use an invalid or unregistered port."
  | some pid =>
    match lookupBinding pid s.bindings with
    | none => .error "No implementation found for the port. Did you forget to call setPortAdapter()?"
    | some a => .ok a

/-- Claim C9: invoking a callable port descriptor directly always raises
the "is an interface and cannot be called directly" error, whatever the
arguments and whatever the registry state — in particular also after a
successful `setPortAdapter`, which makes the adapter available through
`usePort` but leaves the descriptor function throwing. -/
theorem direct_call_always_raises {α : Type} (p : CallablePort) (s : DIState α)
    (adapter : α) (args : List Int) :
    invokePortDirectly p s args = .error (portInterfaceMsg p.portId) ∧
    (∀ s2, setPortAdapterV1 p adapter s = .ok s2 →
      invokePortDirectly p s2 args = .error (portInterfaceMsg p.portId) ∧
      usePortV1 p s2 = .ok adapter) := by
  refine ⟨rfl, ?_⟩
  intro s2 hs2
  refine ⟨rfl, ?_⟩
  unfold setPortAdapterV1 portOkV1 at hs2
  by_cases h0 : p.portId = ""
  · rw [if_pos h0] at hs2
    exact absurd hs2 (by simp)
  · rw [if_neg h0] at hs2
    by_cases h1 : p.portId ∈ s.registry
    · rw [if_pos h1] at hs2
      dsimp only at hs2
      injection hs2 with h2
      subst h2
      simp [usePortV1, portOkV1, h0, h1, lookupBinding]
    · rw [if_neg h1] at hs2
      exact absurd hs2 (by simp)

/-- Witness for C9: a declared port bound to the adapter `42` — the direct
call still raises while `usePort` resolves the adapter. -/
theorem direct_call_always_raises_witness :
    invokePortDirectly (⟨"p9"⟩ : CallablePort) (⟨["p9"], []⟩ : DIState Nat) ([] : List Int) =
      .error (portInterfaceMsg "p9") ∧
    invokePortDirectly (⟨"p9"⟩ : CallablePort) (⟨["p9"], [("p9", 42)]⟩ : DIState Nat)
      ([] : List Int) = .error (portInterfaceMsg "p9") ∧
    usePortV1 (⟨"p9"⟩ : CallablePort) (⟨["p9"], [("p9", 42)]⟩ : DIState Nat) = .ok 42 :=
  ⟨(direct_call_always_raises ⟨"p9"⟩ (⟨["p9"], []⟩ : DIState Nat) 42 []).1,
    ((direct_call_always_raises ⟨"p9"⟩ (⟨["p9"], []⟩ : DIState Nat) 42 []).2
      ⟨["p9"], [("p9", 42)]⟩ (by decide)).1,
    ((direct_call_always_raises ⟨"p9"⟩ (⟨["p9"], []⟩ : DIState Nat) 42 []).2
      ⟨["p9"], [("p9", 42)]⟩ (by decide)).2⟩

/-! ## Branded identifiers, createBrandedId (di.v2.ts) -/

/-- Hexadecimal digit (either case), as the uuid format accepts. -/
def isHexDigit (c : Char) : Bool :=
  c.isDigit || ('a' ≤ c && c ≤ 'f') || ('A' ≤ c && c ≤ 'F')

/-- Split a character list into the dash-separated groups. -/
def splitDashes : List Char → List (List Char)
  | [] => [[]]
  | c :: rest =>
    let r := splitDashes rest
    if c = '-' then [] :: r
    else
      match r with
      | [] => [[c]]
      | g :: gs => (c :: g) :: gs

/-- The textual UUID shape validated by `UuidSchema = z.uuid()`
(8-4-4-4-12 hexadecimal groups); the schema library itself is the opaque
validation collaborator, embedded by its accepted format. -/
def isUuid (s : String) : Bool :=
  let groups := splitDashes s.toList
  groups.map List.length == [8, 4, 4, 4, 12] && groups.all fun g => g.all isHexDigit

/-- A branded id instance: the validated string in its `value` field. -/
structure BrandedId where
  value : String
deriving DecidableEq, Repr

/-- `BrandedId.create` (di.v2.ts lines 157-167): `UuidSchema.parse(value)`
raises on a non-uuid input; on success the instance wraps the very input
string. -/
def BrandedId.create (s : String) : Except String BrandedId :=
  if isUuid s then .ok ⟨s⟩ else .error "Invalid UUID"

/-- `BrandedId.equals` (di.v2.ts lines 174-176): value identity. -/
def BrandedId.equals (a b : BrandedId) : Bool := a.value == b.value

/-- `BrandedId.toString` (di.v2.ts lines 182-184): the raw value. -/
def BrandedId.toString (a : BrandedId) : String := a.value

/-- Claim C10: `create` succeeds exactly on strings of valid UUID shape
(raising otherwise), a successful `create` wraps exactly the input string;
`equals` holds iff the underlying values are identical — hence it is
reflexive and symmetric — and `toString` returns the exact string passed
to `create`. -/
theorem brandedId_spec (s : String) (a b : BrandedId) :
    (isErr (BrandedId.create s) = false ↔ isUuid s = true) ∧
    (BrandedId.create s = .ok ⟨s⟩ ∨ isErr (BrandedId.create s) = true) ∧
    (BrandedId.equals a b = true ↔ a.value = b.value) ∧
    BrandedId.equals a a = true ∧
    (BrandedId.equals a b = true ↔ BrandedId.equals b a = true) ∧
    (∀ x, BrandedId.create s = .ok x → BrandedId.toString x = s) := by
  refine ⟨?_, ?_, ?_, ?_, ?_, ?_⟩
  · unfold BrandedId.create
    by_cases h : isUuid s = true <;> simp [h, isErr]
  · unfold BrandedId.create
    by_cases h : isUuid s = true <;> simp [h, isErr]
  · simp [BrandedId.equals, beq_iff_eq]
  · simp [BrandedId.equals]
  · simp only [BrandedId.equals, beq_iff_eq]
    exact eq_comm
  · intro x hx
    unfold BrandedId.create at hx
    by_cases h : isUuid s = true
    · rw [if_pos h] at hx
      injection hx with h2
      subst h2
      rfl
    · rw [if_neg h] at hx
      exact absurd hx (by simp)

/-- Witness for C10 at a concrete valid uuid: creation succeeds wrapping
the input and `toString` round-trips it. -/
theorem brandedId_spec_witness :
    BrandedId.create "f47ac10b-58cc-4372-a567-0e02b2c3d479" =
      .ok ⟨"f47ac10b-58cc-4372-a567-0e02b2c3d479"⟩ ∧
    BrandedId.toString ⟨"f47ac10b-58cc-4372-a567-0e02b2c3d479"⟩ =
      "f47ac10b-58cc-4372-a567-0e02b2c3d479" :=
  ⟨by decide,
    (brandedId_spec "f47ac10b-58cc-4372-a567-0e02b2c3d479"
        ⟨"f47ac10b-58cc-4372-a567-0e02b2c3d479"⟩
        ⟨"f47ac10b-58cc-4372-a567-0e02b2c3d479"⟩).2.2.2.2.2
      ⟨"f47ac10b-58cc-4372-a567-0e02b2c3d479"⟩ (by decide)⟩

end Sotajs
